import Mathlib

/-!
Shallow embedding of the C-3PO browser translation extension.

The embedding covers the three claim-relevant modules:
* `TranslationService` — `src/src/services/translation-service.ts`: the
  encrypted provider configuration (encryptConfig / decryptConfig /
  getConfig / isConfigured) and the `translate` operation.
* `Background` — the background script (`src/unnamed/part_002`): context-menu
  creation, language resolution for menu clicks, and the message flow back to
  the page.
* `Content` — the content script (`src/unnamed/part_003`): the
  `handleTranslation` message handler and `replaceTextInEditableField`.

Browser-platform primitives (Web Crypto AES-GCM, JSON, base64 `btoa`/`atob`)
are external collaborators; they are passed in as a `CryptoPlatform` record
and the theorems assume exactly their documented contracts. Byte strings are
modelled as `List Nat`; the HTTP transport is an explicit function argument,
and `translate` additionally returns the list of issued chat-completion
requests so that statements about the number of network attempts are possible.
-/

namespace TranslationService

/-- Structure `AIProviderConfig` from translation-service.ts. -/
structure AIProviderConfig where
  endpoint : String
  model : String
  apiKey : String
deriving DecidableEq, Repr

/-- Constant `DEFAULT_CONFIG` from translation-service.ts (Gemini via an
OpenAI-compatible endpoint, empty API key). -/
def DEFAULT_CONFIG : AIProviderConfig :=
  { endpoint := "https://generativelanguage.googleapis.com/v1beta/openai/"
  , model := "gemini-2.0-flash-lite"
  , apiKey := "" }

/-- The raw result of `JSON.parse` on a configuration blob: each field may be
absent (the TS type system does not guarantee a decrypted blob carries all
three fields, and the call sites spread the value over `DEFAULT_CONFIG`). -/
structure OptionalConfig where
  endpoint : Option String := none
  model : Option String := none
  apiKey : Option String := none
deriving DecidableEq, Repr

/-- View a full configuration as the JSON object it serialises to. -/
def toOptionalConfig (c : AIProviderConfig) : OptionalConfig :=
  { endpoint := some c.endpoint, model := some c.model, apiKey := some c.apiKey }

/-- The object spread `{ ...base, ...p }` used at every decryption call site:
fields present in `p` win, absent fields fall back to `base`. -/
def mergeConfig (base : AIProviderConfig) (p : OptionalConfig) : AIProviderConfig :=
  { endpoint := p.endpoint.getD base.endpoint
  , model := p.model.getD base.model
  , apiKey := p.apiKey.getD base.apiKey }

/-- The browser-platform primitives used by encryptConfig/decryptConfig:
Web Crypto AES-GCM, JSON, and base64 (`btoa`/`atob`). `β` is the type of the
textually encoded blob. All are external collaborators of the repository;
theorems assume only their documented contracts (decryption inverts
encryption, `atob` inverts `btoa`, `JSON.parse` inverts `JSON.stringify`). -/
structure CryptoPlatform (β : Type) where
  aesGcmEncrypt : List Nat → List Nat → List Nat → List Nat
  aesGcmDecrypt : List Nat → List Nat → List Nat → Option (List Nat)
  jsonStringifyConfig : AIProviderConfig → List Nat
  jsonParseConfig : List Nat → Option OptionalConfig
  btoa : List Nat → β
  atob : β → Option (List Nat)

/-- Function `encryptConfig` from translation-service.ts: serialise the config to
JSON bytes, AES-GCM-encrypt them under a fresh key and IV, concatenate
raw-key ‖ IV ‖ ciphertext, and base64-encode the result. The freshly
generated 32-byte key and 12-byte IV are explicit arguments. -/
def encryptConfig {β : Type} (p : CryptoPlatform β) (key iv : List Nat)
    (config : AIProviderConfig) : β :=
  let data := p.jsonStringifyConfig config
  let encrypted := p.aesGcmEncrypt key iv data
  let combined := key ++ iv ++ encrypted
  p.btoa combined

/-- The fallback path of `decryptConfig`: legacy plain base64-encoded JSON,
and `DEFAULT_CONFIG` if that fails too. -/
def decryptFallback {β : Type} (p : CryptoPlatform β) (encryptedData : β) :
    OptionalConfig :=
  match p.atob encryptedData with
  | some bytes =>
    match p.jsonParseConfig bytes with
    | some cfg => cfg
    | none => toOptionalConfig DEFAULT_CONFIG
  | none => toOptionalConfig DEFAULT_CONFIG

/-- Function `decryptConfig` from translation-service.ts: base64-decode, split the
byte string at fixed offsets 32 (key) and 44 (key + IV), AES-GCM-decrypt the
remainder, and JSON-parse the plaintext; any failure degrades to
`decryptFallback`. -/
def decryptConfig {β : Type} (p : CryptoPlatform β) (encryptedData : β) :
    OptionalConfig :=
  match p.atob encryptedData with
  | some combined =>
    let keyData := combined.take 32
    let iv := (combined.drop 32).take 12
    let encrypted := combined.drop 44
    match p.aesGcmDecrypt keyData iv encrypted with
    | some decrypted =>
      match p.jsonParseConfig decrypted with
      | some cfg => cfg
      | none => decryptFallback p encryptedData
    | none => decryptFallback p encryptedData
  | none => decryptFallback p encryptedData

/-- Function `getConfig` from translation-service.ts: if a blob is stored, decrypt it
and spread it over `DEFAULT_CONFIG`; otherwise return `DEFAULT_CONFIG`. -/
def getConfig {β : Type} (p : CryptoPlatform β) (stored : Option β) :
    AIProviderConfig :=
  match stored with
  | some blob => mergeConfig DEFAULT_CONFIG (decryptConfig p blob)
  | none => DEFAULT_CONFIG

/-- JavaScript string truthiness: a string is truthy iff it is non-empty. -/
def jsTruthy (s : String) : Bool := s != ""

/-- Function `isConfigured` from translation-service.ts:
`!!(config.apiKey && config.endpoint && config.model)` on the resolved
configuration. -/
def isConfigured {β : Type} (p : CryptoPlatform β) (stored : Option β) : Bool :=
  let config := getConfig p stored
  jsTruthy config.apiKey && jsTruthy config.endpoint && jsTruthy config.model

/-- Structure `TranslationRequest` from translation-service.ts. -/
structure TranslationRequest where
  text : String
  sourceLang : String
  targetLang : String
deriving DecidableEq, Repr

/-- Structure `TranslationResponse` from translation-service.ts. -/
structure TranslationResponse where
  translatedText : String
  success : Bool
  error : Option String := none
deriving DecidableEq, Repr

/-- One chat message of the outbound request body. -/
structure ChatMessage where
  role : String
  content : String
deriving DecidableEq, Repr

/-- The body passed to `client.chat.completions.create` (model, messages,
max_tokens 1000, temperature 0.3). -/
structure ChatCompletionRequest where
  model : String
  messages : List ChatMessage
  max_tokens : Nat
  temperature : ℚ
deriving DecidableEq, Repr

/-- Field `message` of one response choice; `content` may be absent. -/
structure ChatChoiceMessage where
  content : Option String
deriving DecidableEq, Repr

/-- One entry of `response.choices`; `message` may be absent. -/
structure ChatChoice where
  message : Option ChatChoiceMessage
deriving DecidableEq, Repr

/-- The successful response body of the chat-completion call. -/
structure ChatCompletionResponse where
  choices : List ChatChoice
deriving DecidableEq, Repr

/-- A thrown JavaScript error: `some msg` for an `Error` with message `msg`,
`none` for a non-`Error` throw. -/
def JsError : Type := Option String

/-- Expression `error instanceof Error ? error.message : 'Translation failed'`. -/
def jsErrorMessage (e : JsError) : String :=
  match e with
  | some msg => msg
  | none => "Translation failed"

/-- The prompt template built by `translate` (translation-service.ts lines
177-180), with the source language, target language and literal text
interpolated. -/
def translationPrompt (request : TranslationRequest) : String :=
  "Translate the following text from " ++ request.sourceLang ++ " to " ++
    request.targetLang ++ ". \nOnly return the translated text, nothing else.\n\nText to translate: \"" ++
    request.text ++ "\""

/-- The request body `translate` submits to the endpoint. -/
def mkChatRequest (model : String) (request : TranslationRequest) :
    ChatCompletionRequest :=
  { model := model
  , messages := [{ role := "user", content := translationPrompt request }]
  , max_tokens := 1000
  , temperature := 3 / 10 }

/-- JavaScript `String.prototype.trim()`: strip leading and trailing
whitespace. -/
def jsTrim (s : String) : String :=
  ⟨((s.data.dropWhile Char.isWhitespace).reverse.dropWhile Char.isWhitespace).reverse⟩

/-- Extraction `response.choices[0]?.message?.content?.trim() || ''`: the first choice's
content, trimmed, and the empty string when any link of the chain is absent
(or the trimmed text itself is empty, which `|| ''` maps to `''` again). -/
def extractTranslatedText (response : ChatCompletionResponse) : String :=
  match (response.choices.head?.bind ChatChoice.message).bind ChatChoiceMessage.content with
  | some s => jsTrim s
  | none => ""

/-- Function `translate` from translation-service.ts. The OpenAI client is `some ()`
when initialized and `none` otherwise; `net` is the HTTP transport (an
external collaborator), returning either a parsed response or the thrown
error. Besides the `TranslationResponse`, the model returns the list of
chat-completion requests actually issued, so that "no network I/O" and
"exactly one attempt" are expressible. -/
def translate (client : Option Unit) (config : AIProviderConfig)
    (net : ChatCompletionRequest → Except JsError ChatCompletionResponse)
    (request : TranslationRequest) :
    TranslationResponse × List ChatCompletionRequest :=
  match client with
  | none =>
    ({ translatedText := ""
     , success := false
     , error := some "AI service not initialized. Please configure your AI provider settings." }, [])
  | some _ =>
    let req := mkChatRequest config.model request
    match net req with
    | Except.ok response =>
      ({ translatedText := extractTranslatedText response
       , success := true
       , error := none }, [req])
    | Except.error e =>
      ({ translatedText := ""
       , success := false
       , error := some (jsErrorMessage e) }, [req])

end TranslationService

namespace Background

/-- Constant `CONTEXT_MENU_ID` from the background script. -/
def CONTEXT_MENU_ID : String := "translate-selected-text"

/-- Constant `SPANISH_TO_ENGLISH_ID` from the background script. -/
def SPANISH_TO_ENGLISH_ID : String := "translate-spanish-to-english"

/-- One user-defined entry of the stored `customMenuItems` list. -/
structure CustomMenuItem where
  id : String
  sourceLang : String
  targetLang : String
  enabled : Bool
deriving DecidableEq, Repr

/-- The synced-storage keys read by the background script; each may be
absent (`none` plays the role of `undefined`). -/
structure StoredPrefs where
  enableSpanishToEnglish : Option Bool := none
  customMenuItems : Option (List CustomMenuItem) := none
  defaultSourceLang : Option String := none
  defaultTargetLang : Option String := none
deriving DecidableEq, Repr

/-- One created context-menu entry (id and title; the contexts are always
`['selection']`). -/
structure MenuEntry where
  id : String
  title : String
deriving DecidableEq, Repr

/-- The `languages` record of the background script's `getLanguageName`. -/
def languages : List (String × String) :=
  [("en", "English"), ("es", "Spanish"), ("fr", "French"), ("de", "German"),
   ("it", "Italian"), ("pt", "Portuguese"), ("ru", "Russian"), ("ja", "Japanese"),
   ("ko", "Korean"), ("zh", "Chinese"), ("ar", "Arabic"), ("hi", "Hindi")]

/-- Function `getLanguageName` from the background script: `languages[code] || code`. -/
def getLanguageName (code : String) : String :=
  match languages.lookup code with
  | some name => name
  | none => code

/-- Operation `chrome.contextMenus.removeAll`: clears the whole menu set. -/
def removeAllMenus (_menus : List MenuEntry) : List MenuEntry := []

/-- The menu set `createContextMenus` creates (after `removeAll`): the main
translate item, the Spanish→English item unless `enableSpanishToEnglish` is
stored as `false` (absent defaults to enabled), and one item per enabled
custom entry, titled from the language display names. -/
def createContextMenus (prefs : StoredPrefs) : List MenuEntry :=
  let mainMenu : List MenuEntry :=
    [{ id := CONTEXT_MENU_ID, title := "Translate with AI" }]
  let spanishMenu : List MenuEntry :=
    if prefs.enableSpanishToEnglish != some false then
      [{ id := SPANISH_TO_ENGLISH_ID, title := "Translate from Spanish to English" }]
    else []
  let customMenus : List MenuEntry :=
    ((prefs.customMenuItems.getD []).filter (fun item => item.enabled)).map
      (fun item =>
        { id := item.id
        , title := "Translate from " ++ getLanguageName item.sourceLang ++
            " to " ++ getLanguageName item.targetLang })
  mainMenu ++ spanishMenu ++ customMenus

/-- A full `createContextMenus` run as a transition on the browser's menu
state: remove every existing entry, then create the set determined by the
stored preferences. -/
def rebuildContextMenus (oldMenus : List MenuEntry) (prefs : StoredPrefs) :
    List MenuEntry :=
  removeAllMenus oldMenus ++ createContextMenus prefs

/-- The (sourceLang, targetLang) resolution of the `onClicked` listener:
the Spanish shortcut is fixed to es→en, the generic item reads the stored
default languages (`?? 'auto'` / `?? 'en'`), and any other id is looked up
in the stored `customMenuItems`; an unknown id keeps the initial
`('auto', 'en')`. -/
def resolveLanguages (prefs : StoredPrefs) (menuItemId : String) :
    String × String :=
  if menuItemId = SPANISH_TO_ENGLISH_ID then ("es", "en")
  else if menuItemId = CONTEXT_MENU_ID then
    (prefs.defaultSourceLang.getD "auto", prefs.defaultTargetLang.getD "en")
  else
    match (prefs.customMenuItems.getD []).find? (fun item => item.id == menuItemId) with
    | some customItem => (customItem.sourceLang, customItem.targetLang)
    | none => ("auto", "en")

/-- The `TranslationRequest` the `onClicked` listener passes to
`translationService.translate`: the selection text, with a resolved
sourceLang of `'auto'` rewritten to `'auto-detect'`. -/
def clickTranslateRequest (prefs : StoredPrefs) (menuItemId selectionText : String) :
    TranslationService.TranslationRequest :=
  let resolved := resolveLanguages prefs menuItemId
  { text := selectionText
  , sourceLang := if resolved.1 = "auto" then "auto-detect" else resolved.1
  , targetLang := resolved.2 }

/-- A message the background script sends to the originating tab. -/
inductive TabMessage where
  | handleTranslation (originalText translatedText sourceLang targetLang : String)
  | showError (error : String)
deriving DecidableEq, Repr

/-- JavaScript `s || fallback` on a possibly-absent string: the fallback
replaces both an absent and an empty (falsy) string. -/
def jsFalsyOr (s : Option String) (fallback : String) : String :=
  match s with
  | some v => if v = "" then fallback else v
  | none => fallback

/-- The messages sent to the tab by the tail of the `onClicked` listener,
as a function of the outcome of the awaited `translate` call: on a success
result, one `handleTranslation` message; on a failure result, one `showError`
with `translation.error || 'Translation failed'`; on a thrown exception, one
`showError 'Translation service unavailable'` from the catch block. -/
def clickFlowMessages (selectionText sourceLang targetLang : String)
    (outcome : Except TranslationService.JsError TranslationService.TranslationResponse) :
    List TabMessage :=
  match outcome with
  | Except.ok translation =>
    if translation.success then
      [TabMessage.handleTranslation selectionText translation.translatedText
        sourceLang targetLang]
    else
      [TabMessage.showError (jsFalsyOr translation.error "Translation failed")]
  | Except.error _ => [TabMessage.showError "Translation service unavailable"]

end Background

namespace Content

/-- Structure `TranslationMessage` from the content script: all payload fields are
optional. -/
structure TranslationMessage where
  action : String
  originalText : Option String := none
  translatedText : Option String := none
  sourceLang : Option String := none
  targetLang : Option String := none
  error : Option String := none
deriving DecidableEq, Repr

/-- The `languages` record of the content script's `getLanguageName` (it also
maps `'auto'`). -/
def languages : List (String × String) :=
  [("auto", "Auto"), ("en", "English"), ("es", "Spanish"), ("fr", "French"),
   ("de", "German"), ("it", "Italian"), ("pt", "Portuguese"), ("ru", "Russian"),
   ("ja", "Japanese"), ("ko", "Korean"), ("zh", "Chinese"), ("ar", "Arabic"),
   ("hi", "Hindi")]

/-- Function `getLanguageName` from the content script:
`languages[code || 'auto'] || code || 'Unknown'`. -/
def getLanguageName (code : Option String) : String :=
  let key := match code with
    | some c => if c = "" then "auto" else c
    | none => "auto"
  match languages.lookup key with
  | some name => name
  | none =>
    match code with
    | some c => if c = "" then "Unknown" else c
    | none => "Unknown"

/-- A DOM event dispatched on the field. -/
structure DomEvent where
  kind : String
  bubbles : Bool
deriving DecidableEq, Repr

/-- An input/textarea element as `replaceTextInEditableField` sees it: its
value (a list of UTF-16 code units) and the selection offsets, each possibly
`null`. -/
structure FieldState where
  value : List Char
  selectionStart : Option Nat
  selectionEnd : Option Nat
deriving DecidableEq, Repr

/-- The field after `replaceTextInEditableField`: new value, the collapsed
cursor set by `setSelectionRange`, and the dispatched events. -/
structure FieldResult where
  value : List Char
  cursorStart : Nat
  cursorEnd : Nat
  events : List DomEvent
deriving DecidableEq, Repr

/-- JavaScript `String.prototype.substring(a, b)`: both indices are clamped
to the string length and swapped when out of order. -/
def jsSubstring (s : List Char) (a b : Nat) : List Char :=
  let lo := min (min a s.length) (min b s.length)
  let hi := max (min a s.length) (min b s.length)
  (s.take hi).drop lo

/-- JavaScript `String.prototype.substring(a)`: the suffix from the clamped
index. -/
def jsSubstringFrom (s : List Char) (a : Nat) : List Char :=
  s.drop (min a s.length)

/-- The input/textarea branch of `replaceTextInEditableField`: splice
`newText` between `value.substring(0, start)` and `value.substring(end)`
(with `selectionStart || 0` / `selectionEnd || 0`), place the collapsed
cursor after the inserted text, and dispatch a bubbling `input` event. -/
def replaceTextInEditableField (field : FieldState) (newText : List Char) :
    FieldResult :=
  let start := field.selectionStart.getD 0
  let endPos := field.selectionEnd.getD 0
  let value := field.value
  let newValue := jsSubstring value 0 start ++ newText ++ jsSubstringFrom value endPos
  let newPosition := start + newText.length
  { value := newValue
  , cursorStart := newPosition
  , cursorEnd := newPosition
  , events := [{ kind := "input", bubbles := true }] }

/-- An observable effect of the content script's `handleTranslation`. -/
inductive ContentAction where
  | replaceField (text : String)
  | clipboardWrite (text : String)
  | notify (message : String) (kind : String)
deriving DecidableEq, Repr

/-- Function `handleTranslation` from the content script as the list of effects it
performs: an absent or empty `translatedText` shows only the
`'No translation received'` error; otherwise, in an editable field with a
recorded range, replace the text and show a success toast; otherwise copy to
the clipboard (`clipboardOk` tells whether the platform copy succeeded) and
show a success or error toast accordingly. -/
def handleTranslation (isEditableField hasRange clipboardOk : Bool)
    (message : TranslationMessage) : List ContentAction :=
  match message.translatedText with
  | none => [ContentAction.notify "No translation received" "error"]
  | some t =>
    if t = "" then [ContentAction.notify "No translation received" "error"]
    else if isEditableField && hasRange then
      [ContentAction.replaceField t,
       ContentAction.notify ("Translated from " ++ getLanguageName message.sourceLang ++
         " to " ++ getLanguageName message.targetLang) "success"]
    else
      ContentAction.clipboardWrite t ::
        (if clipboardOk then
          [ContentAction.notify ("Translation copied to clipboard (" ++
            getLanguageName message.sourceLang ++ " â†’ " ++
            getLanguageName message.targetLang ++ ")") "success"]
        else
          [ContentAction.notify "Failed to copy translation to clipboard" "error"])

end Content

namespace TranslationService

/-- A concrete configuration used to evaluate the round-trip theorem. -/
def witnessConfig : AIProviderConfig :=
  { endpoint := "https://example.test/v1/", model := "test-model", apiKey := "k" }

/-- A concrete 32-byte key. -/
def witnessKey : List Nat := List.replicate 32 1

/-- A concrete 12-byte IV. -/
def witnessIv : List Nat := List.replicate 12 2

/-- A concrete platform instance satisfying the platform contracts: identity
cipher, identity base64 coder, and a JSON coder that inverts on
`witnessConfig`. -/
def witnessPlatform : CryptoPlatform (List Nat) :=
  { aesGcmEncrypt := fun _ _ data => data
  , aesGcmDecrypt := fun _ _ data => some data
  , jsonStringifyConfig := fun c =>
      (c.endpoint.data ++ c.model.data ++ c.apiKey.data).map Char.toNat
  , jsonParseConfig := fun bs =>
      if bs = (witnessConfig.endpoint.data ++ witnessConfig.model.data ++
          witnessConfig.apiKey.data).map Char.toNat then
        some (toOptionalConfig witnessConfig)
      else none
  , btoa := fun bs => bs
  , atob := fun bs => some bs }

end TranslationService

section Theorems

open TranslationService

/-- C1: encrypting any `AIProviderConfig` with `encryptConfig` and decrypting
the resulting blob with `decryptConfig` yields the original configuration
field by field. The hypotheses are exactly the documented contracts of the
browser platform: the generated AES-256 key has 32 bytes, the generated IV
has 12 bytes, `atob` inverts `btoa`, AES-GCM decryption inverts encryption
under the same key and IV, and `JSON.parse` inverts `JSON.stringify`. -/
theorem encryptConfig_decryptConfig_roundtrip {β : Type} (p : CryptoPlatform β)
    (key iv : List Nat) (config : AIProviderConfig)
    (hkey : key.length = 32) (hiv : iv.length = 12)
    (hatob : ∀ bs, p.atob (p.btoa bs) = some bs)
    (hdec : ∀ data, p.aesGcmDecrypt key iv (p.aesGcmEncrypt key iv data) = some data)
    (hparse : p.jsonParseConfig (p.jsonStringifyConfig config) =
      some (toOptionalConfig config)) :
    decryptConfig p (encryptConfig p key iv config) = toOptionalConfig config ∧
    mergeConfig DEFAULT_CONFIG (decryptConfig p (encryptConfig p key iv config)) =
      config := by
  have htake32 :
      (key ++ (iv ++ p.aesGcmEncrypt key iv (p.jsonStringifyConfig config))).take 32 =
        key := List.take_left' hkey
  have hdrop32 :
      (key ++ (iv ++ p.aesGcmEncrypt key iv (p.jsonStringifyConfig config))).drop 32 =
        iv ++ p.aesGcmEncrypt key iv (p.jsonStringifyConfig config) :=
    List.drop_left' hkey
  have htake12 :
      (iv ++ p.aesGcmEncrypt key iv (p.jsonStringifyConfig config)).take 12 = iv :=
    List.take_left' hiv
  have hdrop44 :
      (key ++ (iv ++ p.aesGcmEncrypt key iv (p.jsonStringifyConfig config))).drop 44 =
        p.aesGcmEncrypt key iv (p.jsonStringifyConfig config) := by
    rw [← List.append_assoc]
    exact List.drop_left' (by simp [hkey, hiv])
  have h1 : decryptConfig p (encryptConfig p key iv config) =
      toOptionalConfig config := by
    simp only [encryptConfig, decryptConfig, List.append_assoc, hatob, htake32,
      hdrop32, htake12, hdrop44, hdec, hparse]
  refine ⟨h1, ?_⟩
  rw [h1]
  simp [mergeConfig, toOptionalConfig]

/-- C1 witness: the round trip evaluated on a concrete platform instance
(identity cipher and inverse JSON/base64 coders) and a concrete
configuration. -/
theorem encryptConfig_decryptConfig_roundtrip_witness :
    decryptConfig witnessPlatform
        (encryptConfig witnessPlatform witnessKey witnessIv witnessConfig) =
      toOptionalConfig witnessConfig ∧
    mergeConfig DEFAULT_CONFIG
        (decryptConfig witnessPlatform
          (encryptConfig witnessPlatform witnessKey witnessIv witnessConfig)) =
      witnessConfig :=
  encryptConfig_decryptConfig_roundtrip witnessPlatform witnessKey witnessIv
    witnessConfig (by decide) (by decide) (fun _ => rfl) (fun _ => rfl) rfl

/-- C2: on a client that was never initialized (`client = none`, as when no
non-empty apiKey was ever configured), `translate` returns the fixed
"not initialized" failure result for every request, issues no
chat-completion request (no network I/O), and — being a total function —
does not throw. -/
theorem translate_uninitialized (config : AIProviderConfig)
    (net : ChatCompletionRequest → Except JsError ChatCompletionResponse)
    (request : TranslationRequest) :
    translate none config net request =
      ({ translatedText := ""
       , success := false
       , error := some "AI service not initialized. Please configure your AI provider settings." },
       []) := rfl

/-- C3: on an initialized client whose HTTP call fails (network error,
non-2xx, or malformed body — all surfaced as a thrown error `e`),
`translate` returns a failure result carrying the underlying error message,
does not throw, and issues exactly one chat-completion request. -/
theorem translate_transport_error (config : AIProviderConfig)
    (net : ChatCompletionRequest → Except JsError ChatCompletionResponse)
    (request : TranslationRequest) (e : JsError)
    (hnet : net (mkChatRequest config.model request) = Except.error e) :
    translate (some ()) config net request =
      ({ translatedText := "", success := false, error := some (jsErrorMessage e) },
       [mkChatRequest config.model request]) ∧
    (translate (some ()) config net request).2.length = 1 ∧
    (∀ msg, e = some msg → jsErrorMessage e = msg) := by
  refine ⟨?_, ?_, ?_⟩
  · simp only [TranslationService.translate, hnet]
  · simp only [TranslationService.translate, hnet, List.length_singleton]
  · intro msg hmsg
    rw [hmsg]
    rfl

/-- C3 witness: a concrete transport that rejects with a network error. -/
theorem translate_transport_error_witness :
    (fun _ : ChatCompletionRequest =>
        (Except.error (some "Network failure") :
          Except JsError ChatCompletionResponse))
      (mkChatRequest DEFAULT_CONFIG.model { text := "Hello", sourceLang := "en", targetLang := "es" }) =
      Except.error (some "Network failure") ∧
    translate (some ()) DEFAULT_CONFIG
        (fun _ => Except.error (some "Network failure"))
        { text := "Hello", sourceLang := "en", targetLang := "es" } =
      ({ translatedText := "", success := false, error := some "Network failure" },
       [mkChatRequest DEFAULT_CONFIG.model { text := "Hello", sourceLang := "en", targetLang := "es" }]) :=
  ⟨rfl,
   (translate_transport_error DEFAULT_CONFIG
     (fun _ => Except.error (some "Network failure"))
     { text := "Hello", sourceLang := "en", targetLang := "es" }
     (some "Network failure") rfl).1⟩

/-- C4: on an initialized client whose endpoint responds successfully,
`translate` returns success with the first choice's content trimmed of
surrounding whitespace (and the empty string when the content chain is
absent), issuing exactly one request. -/
theorem translate_success_trims (config : AIProviderConfig)
    (net : ChatCompletionRequest → Except JsError ChatCompletionResponse)
    (request : TranslationRequest) (response : ChatCompletionResponse)
    (hnet : net (mkChatRequest config.model request) = Except.ok response) :
    (∀ s, (response.choices.head?.bind ChatChoice.message).bind ChatChoiceMessage.content = some s →
      translate (some ()) config net request =
        ({ translatedText := jsTrim s, success := true, error := none },
         [mkChatRequest config.model request])) ∧
    ((response.choices.head?.bind ChatChoice.message).bind ChatChoiceMessage.content = none →
      translate (some ()) config net request =
        ({ translatedText := "", success := true, error := none },
         [mkChatRequest config.model request])) := by
  constructor
  · intro s hs
    simp only [TranslationService.translate, hnet, extractTranslatedText, hs]
  · intro hnone
    simp only [TranslationService.translate, hnet, extractTranslatedText, hnone]

/-- C4 witness: a mocked endpoint returning choice text `" Hola "` yields
`{success: true, translatedText: "Hola"}`, and one returning no content
yields `{success: true, translatedText: ""}`. -/
theorem translate_success_trims_witness :
    translate (some ()) DEFAULT_CONFIG
        (fun _ => Except.ok { choices := [{ message := some { content := some " Hola " } }] })
        { text := "Hello", sourceLang := "en", targetLang := "es" } =
      ({ translatedText := "Hola", success := true, error := none },
       [mkChatRequest DEFAULT_CONFIG.model { text := "Hello", sourceLang := "en", targetLang := "es" }]) ∧
    translate (some ()) DEFAULT_CONFIG
        (fun _ => Except.ok { choices := [] })
        { text := "Hello", sourceLang := "en", targetLang := "es" } =
      ({ translatedText := "", success := true, error := none },
       [mkChatRequest DEFAULT_CONFIG.model { text := "Hello", sourceLang := "en", targetLang := "es" }]) :=
  ⟨(translate_success_trims DEFAULT_CONFIG
      (fun _ => Except.ok { choices := [{ message := some { content := some " Hola " } }] })
      { text := "Hello", sourceLang := "en", targetLang := "es" }
      { choices := [{ message := some { content := some " Hola " } }] } rfl).1 " Hola " rfl,
   (translate_success_trims DEFAULT_CONFIG
      (fun _ => Except.ok { choices := [] })
      { text := "Hello", sourceLang := "en", targetLang := "es" }
      { choices := [] } rfl).2 rfl⟩

/-- C5: `isConfigured` is true exactly when the resolved configuration
(the stored blob decrypted and merged over the built-in defaults) has a
non-empty endpoint, a non-empty model, and a non-empty apiKey; in
particular it is false whenever the apiKey is empty. -/
theorem isConfigured_iff {β : Type} (p : CryptoPlatform β) (stored : Option β) :
    isConfigured p stored = true ↔
      ((getConfig p stored).endpoint ≠ "" ∧ (getConfig p stored).model ≠ "" ∧
       (getConfig p stored).apiKey ≠ "") := by
  simp only [isConfigured, jsTruthy, Bool.and_eq_true, bne_iff_ne, ne_eq]
  tauto

/-- C6: a context-menu rebuild removes every existing entry and recreates the
set from the stored preferences alone, so the result is independent of the
previous menu state and the rebuild is idempotent; with the Spanish shortcut
disabled and no custom items the menu is exactly the generic translate item,
and with the shortcut enabled it is exactly the generic item plus the
Spanish→English item. -/
theorem createContextMenus_determined :
    (∀ (oldMenus oldMenus' : List Background.MenuEntry) (prefs : Background.StoredPrefs),
      Background.rebuildContextMenus oldMenus prefs =
        Background.rebuildContextMenus oldMenus' prefs) ∧
    (∀ (oldMenus : List Background.MenuEntry) (prefs : Background.StoredPrefs),
      Background.rebuildContextMenus (Background.rebuildContextMenus oldMenus prefs) prefs =
        Background.rebuildContextMenus oldMenus prefs) ∧
    Background.createContextMenus
        { enableSpanishToEnglish := some false, customMenuItems := some [] } =
      [{ id := Background.CONTEXT_MENU_ID, title := "Translate with AI" }] ∧
    Background.createContextMenus
        { enableSpanishToEnglish := some true, customMenuItems := some [] } =
      [{ id := Background.CONTEXT_MENU_ID, title := "Translate with AI" },
       { id := Background.SPANISH_TO_ENGLISH_ID, title := "Translate from Spanish to English" }] :=
  ⟨fun _ _ _ => rfl, fun _ _ => rfl, by decide, by decide⟩

/-- C7 counterexample: with the seeded default preference
`defaultSourceLang = "auto"`, clicking the generic translate item passes
`sourceLang = "auto-detect"` to the Translation Client — not the stored
default `"auto"` the claim asserts. -/
theorem clickTranslateRequest_auto_counterexample :
    ({ defaultSourceLang := some "auto", defaultTargetLang := some "en" } :
        Background.StoredPrefs).defaultSourceLang = some "auto" ∧
    (Background.clickTranslateRequest
        { defaultSourceLang := some "auto", defaultTargetLang := some "en" }
        Background.CONTEXT_MENU_ID "Hello").sourceLang = "auto-detect" ∧
    "auto-detect" ≠ "auto" := by
  refine ⟨rfl, by decide, by decide⟩

/-- C7 amended: the (sourceLang, targetLang) pair passed to the Translation
Client is resolved by menu-item identity — es→en for the Spanish shortcut,
the stored default languages for the generic item, and the looked-up entry's
languages for a custom id — except that a resolved sourceLang of `"auto"` is
rewritten to `"auto-detect"` before the translate call. -/
theorem clickTranslateRequest_resolution (prefs : Background.StoredPrefs)
    (selectionText menuItemId : String) (item : Background.CustomMenuItem)
    (h1 : menuItemId ≠ Background.SPANISH_TO_ENGLISH_ID)
    (h2 : menuItemId ≠ Background.CONTEXT_MENU_ID)
    (hfind : (prefs.customMenuItems.getD []).find? (fun i => i.id == menuItemId) =
      some item) :
    Background.clickTranslateRequest prefs menuItemId selectionText =
      { text := selectionText
      , sourceLang := if item.sourceLang = "auto" then "auto-detect" else item.sourceLang
      , targetLang := item.targetLang } ∧
    Background.clickTranslateRequest prefs Background.SPANISH_TO_ENGLISH_ID selectionText =
      { text := selectionText, sourceLang := "es", targetLang := "en" } ∧
    Background.clickTranslateRequest prefs Background.CONTEXT_MENU_ID selectionText =
      { text := selectionText
      , sourceLang := if prefs.defaultSourceLang.getD "auto" = "auto" then "auto-detect"
          else prefs.defaultSourceLang.getD "auto"
      , targetLang := prefs.defaultTargetLang.getD "en" } := by
  refine ⟨?_, rfl, rfl⟩
  simp only [Background.clickTranslateRequest, Background.resolveLanguages,
    if_neg h1, if_neg h2, hfind]

/-- C7 amended witness: the custom entry
`{id: "custom-1", sourceLang: "fr", targetLang: "de", enabled: true}` clicked
with selection "Bonjour" dispatches a translate call with sourceLang "fr" and
targetLang "de". -/
theorem clickTranslateRequest_resolution_witness :
    ("custom-1" : String) ≠ Background.SPANISH_TO_ENGLISH_ID ∧
    ("custom-1" : String) ≠ Background.CONTEXT_MENU_ID ∧
    Background.clickTranslateRequest
        { enableSpanishToEnglish := some true
        , customMenuItems := some [{ id := "custom-1", sourceLang := "fr", targetLang := "de", enabled := true }]
        , defaultSourceLang := some "auto", defaultTargetLang := some "en" }
        "custom-1" "Bonjour" =
      { text := "Bonjour", sourceLang := "fr", targetLang := "de" } :=
  ⟨by decide, by decide,
   (clickTranslateRequest_resolution
     { enableSpanishToEnglish := some true
     , customMenuItems := some [{ id := "custom-1", sourceLang := "fr", targetLang := "de", enabled := true }]
     , defaultSourceLang := some "auto", defaultTargetLang := some "en" }
     "Bonjour" "custom-1"
     { id := "custom-1", sourceLang := "fr", targetLang := "de", enabled := true }
     (by decide) (by decide) rfl).1.trans (by decide)⟩

/-- C8: for every outcome of the awaited translate call, the click flow sends
exactly one message to the originating tab — `handleTranslation` on a success
result, `showError` with the error text on a failure result, and `showError`
with the fixed unavailability text when an exception was thrown. -/
theorem clickFlowMessages_feedback (selectionText sourceLang targetLang : String)
    (outcome : Except JsError TranslationResponse) :
    (Background.clickFlowMessages selectionText sourceLang targetLang outcome).length = 1 ∧
    (∀ r, outcome = Except.ok r → r.success = true →
      Background.clickFlowMessages selectionText sourceLang targetLang outcome =
        [Background.TabMessage.handleTranslation selectionText r.translatedText
          sourceLang targetLang]) ∧
    (∀ r, outcome = Except.ok r → r.success = false →
      Background.clickFlowMessages selectionText sourceLang targetLang outcome =
        [Background.TabMessage.showError (Background.jsFalsyOr r.error "Translation failed")]) ∧
    (∀ e, outcome = Except.error e →
      Background.clickFlowMessages selectionText sourceLang targetLang outcome =
        [Background.TabMessage.showError "Translation service unavailable"]) := by
  refine ⟨?_, ?_, ?_, ?_⟩
  · cases outcome with
    | ok r => by_cases h : r.success <;> simp [Background.clickFlowMessages, h]
    | error e => rfl
  · intro r hr hs
    subst hr
    simp [Background.clickFlowMessages, hs]
  · intro r hr hs
    subst hr
    simp [Background.clickFlowMessages, hs]
  · intro e he
    subst he
    rfl

/-- C8 witness: concrete success and failure outcomes each produce exactly
one message of the required shape. -/
theorem clickFlowMessages_feedback_witness :
    Background.clickFlowMessages "Hello" "en" "es"
        (Except.ok { translatedText := "Hola", success := true }) =
      [Background.TabMessage.handleTranslation "Hello" "Hola" "en" "es"] ∧
    (Background.clickFlowMessages "Hello" "en" "es"
        (Except.error (some "boom" : JsError))).length = 1 :=
  ⟨(clickFlowMessages_feedback "Hello" "en" "es"
      (Except.ok { translatedText := "Hola", success := true })).2.1
    { translatedText := "Hola", success := true } rfl rfl,
   (clickFlowMessages_feedback "Hello" "en" "es"
      (Except.error (some "boom" : JsError))).1⟩

/-- Taking up to the clamped index `min b (length s)` is taking up to `b`. -/
theorem list_take_min (s : List Char) (b : Nat) : s.take (min b s.length) = s.take b := by
  rcases le_total b s.length with h | h
  · rw [min_eq_left h]
  · rw [min_eq_right h, List.take_length, List.take_of_length_le h]

/-- Dropping the clamped index `min b (length s)` is dropping `b`. -/
theorem list_drop_min (s : List Char) (b : Nat) : s.drop (min b s.length) = s.drop b := by
  rcases le_total b s.length with h | h
  · rw [min_eq_left h]
  · rw [min_eq_right h, List.drop_length, List.drop_of_length_le h]

/-- JavaScript `s.substring(0, b)` is the prefix of length `b`. -/
theorem jsSubstring_zero (s : List Char) (b : Nat) :
    Content.jsSubstring s 0 b = s.take b := by
  unfold Content.jsSubstring
  simp only [Nat.zero_min, Nat.zero_max, List.drop_zero, list_take_min]

/-- C9: applying a translation `newText` to an input/textarea with value
`value` and selection offsets `start ≤ endPos` replaces the value with
`value[0..start] ++ newText ++ value[endPos..]`, places the collapsed cursor
at `start + length newText`, and dispatches one bubbling `input` event. -/
theorem replaceTextInEditableField_splice (value newText : List Char)
    (start endPos : Nat) (_hle : start ≤ endPos) :
    Content.replaceTextInEditableField
        { value := value, selectionStart := some start, selectionEnd := some endPos }
        newText =
      { value := value.take start ++ newText ++ value.drop endPos
      , cursorStart := start + newText.length
      , cursorEnd := start + newText.length
      , events := [{ kind := "input", bubbles := true }] } := by
  unfold Content.replaceTextInEditableField
  simp only [Option.getD_some, jsSubstring_zero, Content.jsSubstringFrom, list_drop_min]

/-- C9 witness: replacing "foo" in value "foobar" (offsets 0–3) with "baz"
yields "bazbar" with the cursor at offset 3. -/
theorem replaceTextInEditableField_splice_witness :
    (0 : Nat) ≤ 3 ∧
    Content.replaceTextInEditableField
        { value := "foobar".data, selectionStart := some 0, selectionEnd := some 3 }
        "baz".data =
      { value := "bazbar".data, cursorStart := 3, cursorEnd := 3
      , events := [{ kind := "input", bubbles := true }] } :=
  ⟨by decide,
   (replaceTextInEditableField_splice "foobar".data "baz".data 0 3 (by decide)).trans
     (by decide)⟩

/-- C10: a `handleTranslation` message with an absent or empty
`translatedText` makes the content script show only the
"No translation received" error notification: no field replacement and no
clipboard write happens, for every selection context. -/
theorem handleTranslation_empty (message : Content.TranslationMessage)
    (h : message.translatedText = none ∨ message.translatedText = some "")
    (isEditableField hasRange clipboardOk : Bool) :
    Content.handleTranslation isEditableField hasRange clipboardOk message =
      [Content.ContentAction.notify "No translation received" "error"] ∧
    (∀ t, Content.ContentAction.replaceField t ∉
      Content.handleTranslation isEditableField hasRange clipboardOk message) ∧
    (∀ t, Content.ContentAction.clipboardWrite t ∉
      Content.handleTranslation isEditableField hasRange clipboardOk message) := by
  have heq : Content.handleTranslation isEditableField hasRange clipboardOk message =
      [Content.ContentAction.notify "No translation received" "error"] := by
    rcases h with h | h <;> simp [Content.handleTranslation, h]
  refine ⟨heq, ?_, ?_⟩ <;> intro t <;> rw [heq] <;> simp

/-- C10 witness: a message with no `translatedText` produces exactly the
error notification. -/
theorem handleTranslation_empty_witness :
    (({ action := "handleTranslation" } :
        Content.TranslationMessage).translatedText = none ∨
      ({ action := "handleTranslation" } :
        Content.TranslationMessage).translatedText = some "") ∧
    Content.handleTranslation true true true { action := "handleTranslation" } =
      [Content.ContentAction.notify "No translation received" "error"] :=
  ⟨Or.inl rfl,
   (handleTranslation_empty { action := "handleTranslation" } (Or.inl rfl)
     true true true).1⟩

end Theorems
